import Mathlib

/-!
Verification of the Patras CityBus CLI core (src/citybus.py) against its
natural-language specification.

The embedding models, faithfully to the Python source:
  * `haversine_distance` (citybus.py lines 134-151) over the reals;
  * `find_nearby_stops` (lines 323-359): per-record coordinate coercion via
    Python's `float(...)` (modelled by `pyFloatField` / `parseDec`), the
    `distance <= max_distance_meters` filter, and the stable sort by distance
    (Python `list.sort` is a stable sort by key; modelled by `List.mergeSort`,
    which is stable for the comparator `a.2 <= b.2`);
  * `get_bearer_token` (lines 41-54): the regex search for
    `const token = '([^']+)'` is modelled by the scanner `scanToken`, which
    finds the leftmost position where the literal prefix, a nonempty run of
    non-quote characters and a closing quote all match;
  * `fetch_bus_times` (lines 57-74): `raise_for_status` raises for statuses
    400-599; the handler distinguishes status 401 from other HTTP errors and
    from transport-level failures;
  * `fetch_stops_data` / `fetch_stop_to_name_map` (lines 178-226): explicit
    state passing over a `World` holding the two cache files, the token page,
    the stops endpoint, and a count of remote directory fetches.

Prints to stdout/stderr are not modelled; a printed-error-then-`sys.exit(1)`
path is the `.sysExit` outcome, while an exception no handler catches (for
example `json.load` on a corrupt cache file) is the `.uncaught` outcome.
-/

/-- A JSON scalar as it can appear in a stop record's `latitude`/`longitude`
field: null, a number, or a string. -/
inductive JVal where
  | jnull
  | jnum (x : ℝ)
  | jstr (s : String)

/-- A stop record of the directory: `code`, `name`, and optional coordinate
fields (`Option.none` models an absent key, `JVal.jnull` a JSON null). -/
structure Stop where
  code : Int
  name : String
  latitude : Option JVal
  longitude : Option JVal

/-- Numeric value of a run of decimal digit characters. -/
def digitsVal (cs : List Char) : Nat :=
  cs.foldl (fun n c => 10 * n + (c.toNat - 48)) 0

/-- Core of the model of Python `float(str)`: optional sign, then either a
digit run, or a digit run with a decimal point (`38.2`, `38.`, `.2`). The
result is exact: `some (n, k)` stands for the decimal number `n / 10^k`.
Exponent, underscore, `inf` and `nan` forms accepted by CPython are omitted:
the claims only concern plain decimal strings. -/
def parseDecCore (cs : List Char) : Option (Int × Nat) :=
  let sd : Int × List Char :=
    match cs with
    | c :: rest =>
      if c = '-' then (-1, rest) else if c = '+' then (1, rest) else (1, cs)
    | [] => (1, [])
  let ip := sd.2.takeWhile Char.isDigit
  match sd.2.dropWhile Char.isDigit with
  | [] => if ip = [] then Option.none else some (sd.1 * (digitsVal ip : Int), 0)
  | c :: rest =>
    if c = '.' ∧ rest.all Char.isDigit ∧ (ip ≠ [] ∨ rest ≠ []) then
      some (sd.1 * ((digitsVal ip : Int) * (10 : Int) ^ rest.length + (digitsVal rest : Int)),
        rest.length)
    else Option.none

/-- Leading and trailing whitespace removed, as Python `float(str)` does. -/
def stripSpaces (cs : List Char) : List Char :=
  ((cs.dropWhile Char.isWhitespace).reverse.dropWhile Char.isWhitespace).reverse

/-- Model of Python `float(str)`: `some (n, k)` when the string parses as the
decimal number `n / 10^k`, `Option.none` when `float` raises `ValueError`. -/
def parseDec (s : String) : Option (Int × Nat) :=
  parseDecCore (stripSpaces s.toList)

/-- The real number a parsed decimal pair stands for. -/
noncomputable def decVal (p : Int × Nat) : ℝ :=
  (p.1 : ℝ) / (10 : ℝ) ^ p.2

/-- Model of `float(stop['latitude'])` in `find_nearby_stops`: an absent key
raises `KeyError`, null raises `TypeError`, a non-numeric string raises
`ValueError` — all three yield `Option.none` (the record is skipped); a number
or a numeric string yields its value. -/
noncomputable def pyFloatField : Option JVal → Option ℝ
  | Option.none => Option.none
  | some JVal.jnull => Option.none
  | some (JVal.jnum x) => some x
  | some (JVal.jstr s) => (parseDec s).map decVal

/-- The coordinate extraction of one loop iteration of `find_nearby_stops`
(citybus.py lines 345-347): both fields coerced with `float`, any of the
caught exceptions yielding `Option.none`. -/
noncomputable def tryCoords (s : Stop) : Option (ℝ × ℝ) :=
  match pyFloatField s.latitude, pyFloatField s.longitude with
  | some la, some lo => some (la, lo)
  | _, _ => Option.none

/-- `math.radians`: degrees to radians. -/
noncomputable def radians (x : ℝ) : ℝ := x * (Real.pi / 180)

/-- `haversine_distance` (citybus.py lines 134-151), translated clause by
clause: convert the four inputs with `math.radians`, form
`a = sin(dlat/2)**2 + cos(lat1)*cos(lat2)*sin(dlon/2)**2`,
`c = 2*asin(sqrt(a))`, and return `c * r` with `r = 6371000`. -/
noncomputable def haversine_distance (lat1 lon1 lat2 lon2 : ℝ) : ℝ :=
  let rlat1 := radians lat1
  let rlat2 := radians lat2
  let rlon1 := radians lon1
  let rlon2 := radians lon2
  let dlat := rlat2 - rlat1
  let dlon := rlon2 - rlon1
  let a := Real.sin (dlat / 2) ^ 2 +
    Real.cos rlat1 * Real.cos rlat2 * Real.sin (dlon / 2) ^ 2
  let c := 2 * Real.arcsin (Real.sqrt a)
  c * 6371000

/-- Modelled from the spec (§4.4 "Numeric semantics"): the standard haversine
formula as the spec words it — convert the degrees to radians, compute
`a = sin^2(dlat/2) + cos(lat1)*cos(lat2)*sin^2(dlon/2)`, and return
`2 * 6371000 * asin(sqrt(a))` meters. Used only to compare against the
source's `haversine_distance`. -/
noncomputable def haversineSpecFormula (lat1 lon1 lat2 lon2 : ℝ) : ℝ :=
  2 * 6371000 * Real.arcsin (Real.sqrt
    (Real.sin ((radians lat2 - radians lat1) / 2) ^ 2 +
      Real.cos (radians lat1) * Real.cos (radians lat2) *
        Real.sin ((radians lon2 - radians lon1) / 2) ^ 2))

/-- One loop iteration of `find_nearby_stops` (citybus.py lines 344-354):
skip the record when coordinate coercion fails, otherwise keep
`(stop, distance)` when `distance <= max_distance_meters`. -/
noncomputable def stopStep (maxD ulat ulon : ℝ) (s : Stop) : Option (Stop × ℝ) :=
  match tryCoords s with
  | Option.none => Option.none
  | some (la, lo) =>
    let d := haversine_distance ulat ulon la lo
    if d ≤ maxD then some (s, d) else Option.none

/-- `find_nearby_stops` (citybus.py lines 323-359) with the origin supplied by
the caller (the device-location fallback when both coordinates are omitted is
an out-of-scope collaborator): filter the directory through `stopStep`, then
sort by distance. Python's `list.sort(key=lambda x: x[1])` is a stable sort,
modelled by `List.mergeSort` with the comparator `a.2 <= b.2` (ties keep the
left, i.e. original, element first). -/
noncomputable def find_nearby_stops (maxD ulat ulon : ℝ) (stops : List Stop) :
    List (Stop × ℝ) :=
  (stops.filterMap (stopStep maxD ulat ulon)).mergeSort
    (fun a b => decide (a.2 ≤ b.2))

/-- The single-quote character of the token regex `const token = '([^']+)'`. -/
def quoteChar : Char := Char.ofNat 39

/-- True of the characters the regex class `[^']` accepts. -/
def quotePred : Char → Bool := fun c => decide (c ≠ quoteChar)

/-- The literal part of the token regex up to and including the opening
quote: `const token = '`. -/
def patChars : List Char := "const token = ".toList ++ [quoteChar]

/-- Whether the regex `const token = '([^']+)'` matches at the start of `cs`;
on a match, the first capture group (the nonempty run of non-quote characters
between the quotes). -/
def matchAt (cs : List Char) : Option (List Char) :=
  if patChars.isPrefixOf cs then
    if (cs.drop patChars.length).takeWhile quotePred = [] then Option.none
    else
      match (cs.drop patChars.length).dropWhile quotePred with
      | [] => Option.none
      | _ :: _ => some ((cs.drop patChars.length).takeWhile quotePred)
  else Option.none

/-- Model of `re.search(r"const token = '([^']+)'", text)`: the match at the
leftmost position where the whole pattern succeeds, `Option.none` when no
position matches. -/
def scanToken : List Char → Option (List Char)
  | [] => Option.none
  | c :: cs =>
    match matchAt (c :: cs) with
    | some t => some t
    | Option.none => scanToken cs

/-- The failure outcomes of `get_bearer_token` (citybus.py lines 41-54): a
`requests.RequestException` (transport failure or `raise_for_status` on the
token page) prints "Error getting Bearer token" and exits; a fetched page
without the token pattern prints "No Bearer token found in page JavaScript"
and exits. -/
inductive TokenErr where
  | requestFailed
  | notFound
deriving DecidableEq

/-- `get_bearer_token` (citybus.py lines 41-54): fetch the main page (its
outcome is the input `page`), search the body for the token pattern, and
return the first capture group; every failure prints and exits. -/
def get_bearer_token (page : Except Unit String) : Except TokenErr String :=
  match page with
  | Except.error _ => Except.error TokenErr.requestFailed
  | Except.ok body =>
    match scanToken body.toList with
    | some t => Except.ok (String.mk t)
    | Option.none => Except.error TokenErr.notFound

/-- An HTTP response as `fetch_bus_times` consumes it: the status code and the
parsed JSON body (of abstract type `J`). -/
structure HttpResponse (J : Type) where
  statusCode : Nat
  body : J

/-- The failure outcomes of `fetch_bus_times` (citybus.py lines 57-74), one
per printed-message-then-`sys.exit(1)` branch: token acquisition failed inside
`get_bearer_token`; the distinguished `401 Unauthorized - Token may be
expired` branch; the generic branch for any other `requests.HTTPError` raised
by `raise_for_status`; and the generic branch for any other
`requests.RequestException` (transport failure or a non-JSON body). -/
inductive FetchFailure where
  | tokenFailed (e : TokenErr)
  | unauthorizedTokenExpired
  | httpStatus (code : Nat)
  | requestFailed
deriving DecidableEq

/-- `fetch_bus_times` (citybus.py lines 57-74): resolve a bearer token from
the main page, issue the scheduled-trips request (its transport outcome is
the input `resp`), let `raise_for_status` raise `requests.HTTPError` exactly
for statuses 400-599, and in the handler report status 401 distinctly. -/
def fetch_bus_times {J : Type} (page : Except Unit String)
    (resp : Except Unit (HttpResponse J)) : Except FetchFailure J :=
  match get_bearer_token page with
  | Except.error e => Except.error (FetchFailure.tokenFailed e)
  | Except.ok _ =>
    match resp with
    | Except.error _ => Except.error FetchFailure.requestFailed
    | Except.ok r =>
      if 400 ≤ r.statusCode ∧ r.statusCode ≤ 599 then
        if r.statusCode = 401 then Except.error FetchFailure.unauthorizedTokenExpired
        else Except.error (FetchFailure.httpStatus r.statusCode)
      else Except.ok r.body

/-- State of one on-disk cache file: absent, present but unreadable or not
valid JSON, or present with deserializable contents. -/
inductive FileState (α : Type) where
  | absent
  | corrupt
  | good (data : α)

/-- The environment the two cache functions read and write: the
`stops_data.json` file, the `stop_name.json` file, the token page, the stops
endpoint, and how many remote directory fetches have happened. -/
structure World where
  stopsDataFile : FileState (List Stop)
  stopNameFile : FileState (List (String × String))
  tokenPage : Except Unit String
  stopsEndpoint : Except Unit (List Stop)
  fetchCount : Nat

/-- How a run of a cache function can fail: `.sysExit` is a printed error
followed by `sys.exit(1)` (token or directory fetch failure); `.uncaught` is
an exception no handler catches — in `fetch_stops_data` and
`fetch_stop_to_name_map`, `json.load` on an unreadable or corrupt cache file
raises with no surrounding `try` (citybus.py lines 184-186 and 214-216),
unlike `load_config` and `load_bookmarks`, which do catch and warn. -/
inductive RunError where
  | sysExit
  | uncaught
deriving DecidableEq

/-- `fetch_stops_data` (citybus.py lines 178-204): if `stops_data.json`
exists, deserialize and return it (an unreadable or corrupt file raises,
uncaught); otherwise resolve a token, fetch the stops endpoint (any
`requests.RequestException` exits), write the full result to
`stops_data.json`, and return it. -/
def fetch_stops_data (w : World) : Except RunError (List Stop × World) :=
  match w.stopsDataFile with
  | FileState.good d => Except.ok (d, w)
  | FileState.corrupt => Except.error RunError.uncaught
  | FileState.absent =>
    match get_bearer_token w.tokenPage with
    | Except.error _ => Except.error RunError.sysExit
    | Except.ok _ =>
      match w.stopsEndpoint with
      | Except.error _ => Except.error RunError.sysExit
      | Except.ok stops =>
        Except.ok (stops,
          { w with stopsDataFile := FileState.good stops,
                   fetchCount := w.fetchCount + 1 })

/-- The code-to-name projection `{str(stop['code']): stop['name'] ...}` built
by `fetch_stop_to_name_map`; stop codes are unique in the directory, so the
Python dict comprehension is this list of pairs in directory order. -/
def nameMapOf (stops : List Stop) : List (String × String) :=
  stops.map (fun s => (toString s.code, s.name))

/-- `fetch_stop_to_name_map` (citybus.py lines 207-226): if `stop_name.json`
exists, deserialize and return it (an unreadable or corrupt file raises,
uncaught); otherwise obtain the full directory through `fetch_stops_data`,
project it to the code-to-name map, write that map to `stop_name.json`, and
return it. -/
def fetch_stop_to_name_map (w : World) :
    Except RunError (List (String × String) × World) :=
  match w.stopNameFile with
  | FileState.good m => Except.ok (m, w)
  | FileState.corrupt => Except.error RunError.uncaught
  | FileState.absent =>
    match fetch_stops_data w with
    | Except.error e => Except.error e
    | Except.ok (stops, w1) =>
      Except.ok (nameMapOf stops,
        { w1 with stopNameFile := FileState.good (nameMapOf stops) })

/-- A sample stop name for concrete instances. -/
def nameA : String := "Plateia Georgiou"

/-- A second sample stop name. -/
def nameB : String := "Agiou Dionysiou"

/-- Characters of a sample token value. -/
def tokenValChars : List Char := ['a', 'b', 'c', '1', '2', '3']

/-- The sample token value as a string. -/
def demoToken : String := String.mk tokenValChars

/-- A token page body that contains `const token = 'abc123'`. -/
def demoPage : String :=
  String.mk (patChars ++ tokenValChars ++ [quoteChar])

/-- A token page body with no occurrence of the token pattern. -/
def noTokenPage : String := "window.location = 1; nothing embedded here"

/-- A concrete directory record without coordinate fields. -/
def demoStop : Stop :=
  { code := 430, name := nameA, latitude := Option.none, longitude := Option.none }

/-- A world with no cache files, a working token page and a working stops
endpoint: the cold-cache state. -/
def demoColdWorld : World :=
  { stopsDataFile := FileState.absent, stopNameFile := FileState.absent,
    tokenPage := Except.ok demoPage, stopsEndpoint := Except.ok [demoStop],
    fetchCount := 0 }

/-- A world whose `stops_data.json` exists but is corrupt, while the token
page and the stops endpoint both work, so a re-fetch would be possible. -/
def demoCorruptWorld : World :=
  { stopsDataFile := FileState.corrupt, stopNameFile := FileState.absent,
    tokenPage := Except.ok demoPage, stopsEndpoint := Except.ok [demoStop],
    fetchCount := 0 }

/-- A second corrupt-cache world with different remaining state. -/
def demoCorruptWorld2 : World :=
  { stopsDataFile := FileState.corrupt, stopNameFile := FileState.corrupt,
    tokenPage := Except.ok noTokenPage, stopsEndpoint := Except.error (),
    fetchCount := 7 }

/-- A concrete record with native numeric coordinates. -/
noncomputable def demoGeoStop : Stop :=
  { code := 1, name := nameA,
    latitude := some (JVal.jnum 38.2), longitude := some (JVal.jnum 21.7) }

/-- A concrete malformed record: both coordinate keys missing. -/
def badStop : Stop :=
  { code := 2, name := nameB, latitude := Option.none, longitude := Option.none }

/-- The latitude string of the string-coordinate record. -/
def s382 : String := "38.2"

/-- The longitude string of the string-coordinate record. -/
def s217 : String := "21.7"

/-- A concrete record whose coordinates are decimal strings. -/
def demoStrStop : Stop :=
  { code := 3, name := nameB,
    latitude := some (JVal.jstr s382), longitude := some (JVal.jstr s217) }

/-- The world after the cold first call wrote `stops_data.json`. -/
def coldAfterStops : World :=
  { demoColdWorld with stopsDataFile := FileState.good [demoStop], fetchCount := 1 }

lemma haversine_distance_self (a b : ℝ) : haversine_distance a b a b = 0 := by
  simp [haversine_distance]

lemma sin_half_sub_sq_comm (x y : ℝ) :
    Real.sin ((x - y) / 2) ^ 2 = Real.sin ((y - x) / 2) ^ 2 := by
  rw [show x - y = -(y - x) by ring, neg_div, Real.sin_neg, neg_sq]

lemma haversine_distance_comm (lat1 lon1 lat2 lon2 : ℝ) :
    haversine_distance lat1 lon1 lat2 lon2 = haversine_distance lat2 lon2 lat1 lon1 := by
  simp only [haversine_distance]
  rw [sin_half_sub_sq_comm (radians lat2) (radians lat1),
    sin_half_sub_sq_comm (radians lon2) (radians lon1),
    mul_comm (Real.cos (radians lat1)) (Real.cos (radians lat2))]

/-- Claim C4: for every pair of coordinates in decimal degrees,
`haversine_distance` equals the standard haversine formula with mean Earth
radius 6,371,000 m: degrees to radians, then
`a = sin^2(dlat/2) + cos(lat1)*cos(lat2)*sin^2(dlon/2)`, returning
`2 * 6371000 * asin(sqrt(a))` meters. -/
theorem haversine_distance_matches_spec_formula (lat1 lon1 lat2 lon2 : ℝ) :
    haversine_distance lat1 lon1 lat2 lon2 = haversineSpecFormula lat1 lon1 lat2 lon2 := by
  simp only [haversine_distance, haversineSpecFormula]
  ring

/-- Claim C5: `haversine_distance` of a point with itself is `0`, and
`haversine_distance` is symmetric in its two points. -/
theorem haversine_distance_self_zero_and_symm (lat1 lon1 lat2 lon2 : ℝ) :
    haversine_distance lat1 lon1 lat1 lon1 = 0 ∧
    haversine_distance lat1 lon1 lat2 lon2 = haversine_distance lat2 lon2 lat1 lon1 :=
  ⟨haversine_distance_self lat1 lon1, haversine_distance_comm lat1 lon1 lat2 lon2⟩

lemma matchAt_ne_nil {cs t : List Char} (h : matchAt cs = some t) : t ≠ [] := by
  unfold matchAt at h
  split at h
  · split at h
    · simp at h
    · rename_i hne
      split at h
      · simp at h
      · rename_i heq
        intro habs
        rw [← Option.some.inj h] at habs
        exact hne habs
  · simp at h

lemma scanToken_ne_nil : ∀ {cs t : List Char}, scanToken cs = some t → t ≠ []
  | [], t, h => by simp [scanToken] at h
  | c :: cs, t, h => by
    rw [scanToken] at h
    cases hm : matchAt (c :: cs) with
    | none => rw [hm] at h; exact scanToken_ne_nil h
    | some t2 =>
      rw [hm] at h
      have ht : t2 = t := Option.some.inj h
      exact ht ▸ matchAt_ne_nil hm

lemma string_mk_ne_empty {l : List Char} (h : l ≠ []) : String.mk l ≠ "" := by
  intro habs
  exact h (congrArg String.data habs)

/-- Claim C8: when the token page is fetched successfully but its body has no
match for the embedded-assignment pattern, `get_bearer_token` yields the
token-not-found outcome (a reported error, not a crash: the model is total),
and a successful result is never the empty string. -/
theorem get_bearer_token_no_pattern (body : String) :
    (scanToken body.toList = Option.none →
      get_bearer_token (Except.ok body) = Except.error TokenErr.notFound) ∧
    ∀ t, get_bearer_token (Except.ok body) = Except.ok t → t ≠ "" := by
  constructor
  · intro h
    have h2 : scanToken body.data = Option.none := h
    simp [get_bearer_token, h2]
  · intro t h
    simp only [get_bearer_token] at h
    cases hs : scanToken body.toList with
    | none => rw [hs] at h; simp at h
    | some l =>
      rw [hs] at h
      have hlt : String.mk l = t := Except.ok.inj h
      exact hlt ▸ string_mk_ne_empty (scanToken_ne_nil hs)

/-- Witness for C8 at a concrete page body without the pattern. -/
theorem get_bearer_token_no_pattern_demo :
    get_bearer_token (Except.ok noTokenPage) = Except.error TokenErr.notFound :=
  (get_bearer_token_no_pattern noTokenPage).1 rfl

/-- Claim C9: for `fetch_bus_times`, an HTTP 401 response produces the
distinct token-likely-expired outcome, different from the outcome of any
other 4xx/5xx status and from a transport-level failure. -/
theorem fetch_bus_times_401_distinct {J : Type} (page : Except Unit String)
    (t : String) (body401 bodyC : J) (c : Nat)
    (ht : get_bearer_token page = Except.ok t)
    (hc : 400 ≤ c ∧ c ≤ 599) (hne : c ≠ 401) :
    fetch_bus_times page (Except.ok { statusCode := 401, body := body401 }) =
      Except.error FetchFailure.unauthorizedTokenExpired ∧
    fetch_bus_times page (Except.ok { statusCode := c, body := bodyC }) =
      Except.error (FetchFailure.httpStatus c) ∧
    fetch_bus_times (J := J) page (Except.error ()) =
      Except.error FetchFailure.requestFailed ∧
    (Except.error FetchFailure.unauthorizedTokenExpired : Except FetchFailure J) ≠
      Except.error (FetchFailure.httpStatus c) ∧
    (Except.error FetchFailure.unauthorizedTokenExpired : Except FetchFailure J) ≠
      Except.error FetchFailure.requestFailed := by
  refine ⟨?_, ?_, ?_, ?_, ?_⟩
  · simp [fetch_bus_times, ht]
  · simp [fetch_bus_times, ht, hc.1, hc.2, hne]
  · simp [fetch_bus_times, ht]
  · simp
  · simp

lemma stopStep_eq_some {maxD ulat ulon : ℝ} {s : Stop} {p : Stop × ℝ}
    (h : stopStep maxD ulat ulon s = some p) :
    p.1 = s ∧ p.2 ≤ maxD ∧
      ∃ la lo, tryCoords s = some (la, lo) ∧
        p.2 = haversine_distance ulat ulon la lo := by
  cases htc : tryCoords s with
  | none => simp [stopStep, htc] at h
  | some c =>
    obtain ⟨la, lo⟩ := c
    simp only [stopStep, htc] at h
    by_cases hle : haversine_distance ulat ulon la lo ≤ maxD
    · rw [if_pos hle] at h
      obtain rfl := Option.some.inj h
      exact ⟨rfl, hle, la, lo, rfl, rfl⟩
    · rw [if_neg hle] at h
      simp at h

lemma stopStep_of_le {maxD ulat ulon la lo : ℝ} {s : Stop}
    (htc : tryCoords s = some (la, lo))
    (hle : haversine_distance ulat ulon la lo ≤ maxD) :
    stopStep maxD ulat ulon s = some (s, haversine_distance ulat ulon la lo) := by
  simp [stopStep, htc, hle]

lemma mem_find_nearby_of_le {maxD ulat ulon la lo : ℝ} {s : Stop} {stops : List Stop}
    (hmem : s ∈ stops) (htc : tryCoords s = some (la, lo))
    (hle : haversine_distance ulat ulon la lo ≤ maxD) :
    (s, haversine_distance ulat ulon la lo) ∈ find_nearby_stops maxD ulat ulon stops := by
  rw [find_nearby_stops, List.mem_mergeSort]
  exact List.mem_filterMap.mpr ⟨s, hmem, stopStep_of_le htc hle⟩

lemma distLE_trans : ∀ a b c : Stop × ℝ,
    (fun a b : Stop × ℝ => decide (a.2 ≤ b.2)) a b →
    (fun a b : Stop × ℝ => decide (a.2 ≤ b.2)) b c →
    (fun a b : Stop × ℝ => decide (a.2 ≤ b.2)) a c := by
  intro a b c hab hbc
  simp only [decide_eq_true_eq] at hab hbc ⊢
  exact le_trans hab hbc

lemma distLE_total : ∀ a b : Stop × ℝ,
    ((fun a b : Stop × ℝ => decide (a.2 ≤ b.2)) a b ||
     (fun a b : Stop × ℝ => decide (a.2 ≤ b.2)) b a) = true := by
  intro a b
  simp only [Bool.or_eq_true, decide_eq_true_eq]
  exact le_total a.2 b.2

/-- Claim C3: `find_nearby_stops` returns only pairs whose second component
is the computed great-circle distance from the origin to the record's parsed
coordinates and is at most `max_distance_meters`; the sequence is sorted
non-decreasing by distance; and for each distance value the pairs at that
distance appear exactly as in the unsorted filtered pass over the directory —
the stable sort breaks ties by original directory order. -/
theorem find_nearby_stops_sorted_bounded_stable (maxD ulat ulon : ℝ)
    (stops : List Stop) :
    (∀ p ∈ find_nearby_stops maxD ulat ulon stops,
      p.2 ≤ maxD ∧ ∃ la lo, tryCoords p.1 = some (la, lo) ∧
        p.2 = haversine_distance ulat ulon la lo) ∧
    List.Pairwise (fun a b : Stop × ℝ => a.2 ≤ b.2)
      (find_nearby_stops maxD ulat ulon stops) ∧
    ∀ d : ℝ, (find_nearby_stops maxD ulat ulon stops).filter
        (fun p => decide (p.2 = d)) =
      (stops.filterMap (stopStep maxD ulat ulon)).filter
        (fun p => decide (p.2 = d)) := by
  refine ⟨?_, ?_, ?_⟩
  · intro p hp
    rw [find_nearby_stops, List.mem_mergeSort] at hp
    obtain ⟨s, hsmem, hstep⟩ := List.mem_filterMap.mp hp
    obtain ⟨h1, h2, la, lo, htc, hd⟩ := stopStep_eq_some hstep
    exact ⟨h2, la, lo, h1 ▸ htc, hd⟩
  · rw [find_nearby_stops]
    exact (List.sorted_mergeSort distLE_trans distLE_total
      (stops.filterMap (stopStep maxD ulat ulon))).imp
      (fun h => of_decide_eq_true h)
  · intro d
    rw [find_nearby_stops]
    have hpw : (List.filter (fun p => decide (p.2 = d))
        (stops.filterMap (stopStep maxD ulat ulon))).Pairwise
        (fun a b : Stop × ℝ => decide (a.2 ≤ b.2)) := by
      apply List.pairwise_of_forall_mem_list
      intro a ha b hb
      have ha2 : a.2 = d := of_decide_eq_true (List.mem_filter.mp ha).2
      have hb2 : b.2 = d := of_decide_eq_true (List.mem_filter.mp hb).2
      simp [ha2, hb2]
    have hid : (List.filter (fun p => decide (p.2 = d))
          (stops.filterMap (stopStep maxD ulat ulon))).filter
          (fun p => decide (p.2 = d)) =
        List.filter (fun p => decide (p.2 = d))
          (stops.filterMap (stopStep maxD ulat ulon)) :=
      List.filter_eq_self.mpr (fun a ha => (List.mem_filter.mp ha).2)
    have hsub : List.Sublist
        (List.filter (fun p => decide (p.2 = d))
          (stops.filterMap (stopStep maxD ulat ulon)))
        (((stops.filterMap (stopStep maxD ulat ulon)).mergeSort
          (fun a b => decide (a.2 ≤ b.2))).filter (fun p => decide (p.2 = d))) := by
      have h1 := List.sublist_mergeSort distLE_trans distLE_total hpw
        (List.filter_sublist (stops.filterMap (stopStep maxD ulat ulon)))
      have h2 := h1.filter (fun p => decide (p.2 = d))
      rwa [hid] at h2
    have hperm : List.Perm
        (((stops.filterMap (stopStep maxD ulat ulon)).mergeSort
          (fun a b => decide (a.2 ≤ b.2))).filter (fun p => decide (p.2 = d)))
        (List.filter (fun p => decide (p.2 = d))
          (stops.filterMap (stopStep maxD ulat ulon))) :=
      (List.mergeSort_perm (stops.filterMap (stopStep maxD ulat ulon))
        (fun a b => decide (a.2 ≤ b.2))).filter (fun p => decide (p.2 = d))
    exact (hsub.eq_of_length hperm.length_eq.symm).symm

/-- Claim C6: calling `find_nearby_stops` with `max_distance_meters = 0` and
an origin exactly equal to a stop's parsed coordinates returns that stop
paired with distance `0` — the distance bound is inclusive. -/
theorem find_nearby_stops_exact_origin (stops : List Stop) (s : Stop) (la lo : ℝ)
    (hmem : s ∈ stops) (htc : tryCoords s = some (la, lo)) :
    (s, 0) ∈ find_nearby_stops 0 la lo stops := by
  have h0 := haversine_distance_self la lo
  have hin := mem_find_nearby_of_le hmem htc (le_of_eq h0)
  rwa [h0] at hin

/-- Witness for C6 at a concrete one-stop directory. -/
theorem find_nearby_stops_exact_origin_demo :
    (demoGeoStop, 0) ∈ find_nearby_stops 0 38.2 21.7 [demoGeoStop] :=
  find_nearby_stops_exact_origin [demoGeoStop] demoGeoStop 38.2 21.7
    (List.mem_singleton.mpr rfl) rfl

/-- Claim C7: a directory record whose coordinates cannot be coerced to
numbers is skipped individually — the search result over a directory
containing it equals the result over the directory without it, so the
remaining records are all still processed and the search never fails. -/
theorem find_nearby_stops_skips_malformed (maxD ulat ulon : ℝ)
    (pre post : List Stop) (bad : Stop) (hbad : tryCoords bad = Option.none) :
    find_nearby_stops maxD ulat ulon (pre ++ bad :: post) =
      find_nearby_stops maxD ulat ulon (pre ++ post) := by
  rw [find_nearby_stops, find_nearby_stops]
  congr 1
  rw [List.filterMap_append, List.filterMap_append, List.filterMap_cons]
  simp [stopStep, hbad]

/-- Witness for C7 at a concrete record with both coordinate keys missing. -/
theorem find_nearby_stops_skips_malformed_demo :
    tryCoords badStop = Option.none ∧
    find_nearby_stops 100 0 0 [badStop] = find_nearby_stops 100 0 0 [] :=
  ⟨rfl, find_nearby_stops_skips_malformed 100 0 0 [] [] badStop rfl⟩

/-- Claim C10: a record whose latitude and longitude are strings that parse
as decimal numbers is not treated as malformed: its coordinates are coerced
to the numbers the strings denote, coercion agrees with the same record
carrying native numeric coordinates, and the record participates in distance
filtering and membership in the ranked result like any numeric record. -/
theorem find_nearby_stops_string_coords (s : Stop) (a b : String)
    (n1 n2 : Int × Nat)
    (hlat : s.latitude = some (JVal.jstr a)) (hlon : s.longitude = some (JVal.jstr b))
    (hpa : parseDec a = some n1) (hpb : parseDec b = some n2) :
    tryCoords s = some (decVal n1, decVal n2) ∧
    tryCoords s = tryCoords { s with
      latitude := some (JVal.jnum (decVal n1))
      longitude := some (JVal.jnum (decVal n2)) } ∧
    ∀ maxD ulat ulon : ℝ, ∀ stops : List Stop, s ∈ stops →
      haversine_distance ulat ulon (decVal n1) (decVal n2) ≤ maxD →
      (s, haversine_distance ulat ulon (decVal n1) (decVal n2)) ∈
        find_nearby_stops maxD ulat ulon stops := by
  have h1 : tryCoords s = some (decVal n1, decVal n2) := by
    simp [tryCoords, pyFloatField, hlat, hlon, hpa, hpb]
  refine ⟨h1, ?_, ?_⟩
  · rw [h1]
    simp [tryCoords, pyFloatField]
  · intro maxD ulat ulon stops hmem hle
    exact mem_find_nearby_of_le hmem h1 hle

/-- Witness for C10 at a concrete record with string coordinates `"38.2"`,
`"21.7"`. -/
theorem find_nearby_stops_string_coords_demo :
    tryCoords demoStrStop = some (decVal (382, 1), decVal (217, 1)) ∧
    tryCoords demoStrStop = tryCoords { demoStrStop with
      latitude := some (JVal.jnum (decVal (382, 1)))
      longitude := some (JVal.jnum (decVal (217, 1))) } ∧
    ∀ maxD ulat ulon : ℝ, ∀ stops : List Stop, demoStrStop ∈ stops →
      haversine_distance ulat ulon (decVal (382, 1)) (decVal (217, 1)) ≤ maxD →
      (demoStrStop, haversine_distance ulat ulon (decVal (382, 1)) (decVal (217, 1))) ∈
        find_nearby_stops maxD ulat ulon stops :=
  find_nearby_stops_string_coords demoStrStop s382 s217 (382, 1) (217, 1)
    rfl rfl rfl rfl

/-- Counterexample to claim C1 as stated: with no cache file, a first call to
`fetch_stops_data` performs the one remote directory fetch but writes only the
full directory file — the code-to-name projection file stays absent, so "the
first call ... writes both cache files" is false for this entry point (only
`fetch_stop_to_name_map` writes the projection file). -/
theorem fetch_stops_data_cold_writes_one_file_only :
    fetch_stops_data demoColdWorld = Except.ok ([demoStop], coldAfterStops) ∧
    coldAfterStops.fetchCount = demoColdWorld.fetchCount + 1 ∧
    coldAfterStops.stopsDataFile = FileState.good [demoStop] ∧
    coldAfterStops.stopNameFile = FileState.absent :=
  ⟨rfl, rfl, rfl, rfl⟩

/-- Claim C1 (amended): when neither cache file exists, the first call to
`fetch_stop_to_name_map` performs exactly one remote directory fetch and
writes both cache files, while a first call to `fetch_stops_data` performs
exactly one remote directory fetch but writes only the full directory file;
in either case every subsequent call to either function performs zero remote
fetches and returns data identical to what the first call computed (after a
cold `fetch_stops_data` call, a later first `fetch_stop_to_name_map` call
fills in the projection file from the cached directory with zero remote
fetches). The first conjunct covers the name-map-first order (`w1` the world
after the call, fetch count up by exactly one, then both functions fixed on
`w1`); the second covers the stops-data-first order (`w2` after the cold
directory call with the projection file still absent, `w3` after the
no-fetch name-map call, both functions fixed on `w3`). -/
theorem fetch_stop_to_name_map_cold_one_fetch_then_none
    (w : World) (stops : List Stop) (t : String)
    (hs : w.stopsDataFile = FileState.absent)
    (hn : w.stopNameFile = FileState.absent)
    (ht : get_bearer_token w.tokenPage = Except.ok t)
    (hr : w.stopsEndpoint = Except.ok stops) :
    (∃ w1 : World,
      fetch_stop_to_name_map w = Except.ok (nameMapOf stops, w1) ∧
      w1.fetchCount = w.fetchCount + 1 ∧
      w1.stopsDataFile = FileState.good stops ∧
      w1.stopNameFile = FileState.good (nameMapOf stops) ∧
      fetch_stop_to_name_map w1 = Except.ok (nameMapOf stops, w1) ∧
      fetch_stops_data w1 = Except.ok (stops, w1)) ∧
    (∃ w2 w3 : World,
      fetch_stops_data w = Except.ok (stops, w2) ∧
      w2.fetchCount = w.fetchCount + 1 ∧
      w2.stopsDataFile = FileState.good stops ∧
      w2.stopNameFile = FileState.absent ∧
      fetch_stops_data w2 = Except.ok (stops, w2) ∧
      fetch_stop_to_name_map w2 = Except.ok (nameMapOf stops, w3) ∧
      w3.fetchCount = w2.fetchCount ∧
      w3.stopsDataFile = FileState.good stops ∧
      w3.stopNameFile = FileState.good (nameMapOf stops) ∧
      fetch_stop_to_name_map w3 = Except.ok (nameMapOf stops, w3) ∧
      fetch_stops_data w3 = Except.ok (stops, w3)) := by
  constructor
  · refine ⟨{ w with
        stopsDataFile := FileState.good stops
        stopNameFile := FileState.good (nameMapOf stops)
        fetchCount := w.fetchCount + 1 }, ?_, rfl, rfl, rfl, ?_, ?_⟩
    · simp [fetch_stop_to_name_map, fetch_stops_data, hs, hn, ht, hr]
    · simp [fetch_stop_to_name_map]
    · simp [fetch_stops_data]
  · refine ⟨{ w with
        stopsDataFile := FileState.good stops
        fetchCount := w.fetchCount + 1 },
      { w with
        stopsDataFile := FileState.good stops
        stopNameFile := FileState.good (nameMapOf stops)
        fetchCount := w.fetchCount + 1 },
      ?_, rfl, rfl, hn, ?_, ?_, rfl, rfl, rfl, ?_, ?_⟩
    · simp [fetch_stops_data, hs, ht, hr]
    · simp [fetch_stops_data]
    · simp [fetch_stop_to_name_map, fetch_stops_data, hn]
    · simp [fetch_stop_to_name_map]
    · simp [fetch_stops_data]

/-- Witness for the amended C1 at the concrete cold world. -/
theorem fetch_stop_to_name_map_cold_demo :
    (∃ w1 : World,
      fetch_stop_to_name_map demoColdWorld = Except.ok (nameMapOf [demoStop], w1) ∧
      w1.fetchCount = demoColdWorld.fetchCount + 1 ∧
      w1.stopsDataFile = FileState.good [demoStop] ∧
      w1.stopNameFile = FileState.good (nameMapOf [demoStop]) ∧
      fetch_stop_to_name_map w1 = Except.ok (nameMapOf [demoStop], w1) ∧
      fetch_stops_data w1 = Except.ok ([demoStop], w1)) ∧
    (∃ w2 w3 : World,
      fetch_stops_data demoColdWorld = Except.ok ([demoStop], w2) ∧
      w2.fetchCount = demoColdWorld.fetchCount + 1 ∧
      w2.stopsDataFile = FileState.good [demoStop] ∧
      w2.stopNameFile = FileState.absent ∧
      fetch_stops_data w2 = Except.ok ([demoStop], w2) ∧
      fetch_stop_to_name_map w2 = Except.ok (nameMapOf [demoStop], w3) ∧
      w3.fetchCount = w2.fetchCount ∧
      w3.stopsDataFile = FileState.good [demoStop] ∧
      w3.stopNameFile = FileState.good (nameMapOf [demoStop]) ∧
      fetch_stop_to_name_map w3 = Except.ok (nameMapOf [demoStop], w3) ∧
      fetch_stops_data w3 = Except.ok ([demoStop], w3)) :=
  fetch_stop_to_name_map_cold_one_fetch_then_none demoColdWorld [demoStop]
    demoToken rfl rfl rfl rfl

/-- Counterexample to claim C2 as stated: in a world whose `stops_data.json`
exists but is corrupt while the remote source works (a re-fetch was
possible), `fetch_stops_data` neither warns nor falls through to re-fetch —
`json.load` has no surrounding `try` (citybus.py lines 184-186), so the parse
error propagates as an uncaught exception. -/
theorem fetch_stops_data_corrupt_no_refetch :
    fetch_stops_data demoCorruptWorld = Except.error RunError.uncaught ∧
    demoCorruptWorld.stopsEndpoint = Except.ok [demoStop] :=
  ⟨rfl, rfl⟩

/-- Claim C2 (amended): for every world with an existing but unreadable or
corrupt stop-directory cache file, reading the cache IS fatal: the error
propagates uncaught, with no warning and no re-fetch — unlike `load_config`
and `load_bookmarks`, which do catch, warn and continue. -/
theorem fetch_stops_data_corrupt_cache_fatal (w : World)
    (h : w.stopsDataFile = FileState.corrupt) :
    fetch_stops_data w = Except.error RunError.uncaught := by
  simp [fetch_stops_data, h]

/-- Witness for the amended C2 at a second concrete corrupt world. -/
theorem fetch_stops_data_corrupt_cache_fatal_demo :
    fetch_stops_data demoCorruptWorld2 = Except.error RunError.uncaught :=
  fetch_stops_data_corrupt_cache_fatal demoCorruptWorld2 rfl

/-- Witness for C9 at a concrete page, token and status 500. -/
theorem fetch_bus_times_401_distinct_demo :
    fetch_bus_times (J := Nat) (Except.ok demoPage)
        (Except.ok { statusCode := 401, body := 0 }) =
      Except.error FetchFailure.unauthorizedTokenExpired ∧
    fetch_bus_times (J := Nat) (Except.ok demoPage)
        (Except.ok { statusCode := 500, body := 1 }) =
      Except.error (FetchFailure.httpStatus 500) ∧
    fetch_bus_times (J := Nat) (Except.ok demoPage) (Except.error ()) =
      Except.error FetchFailure.requestFailed ∧
    (Except.error FetchFailure.unauthorizedTokenExpired : Except FetchFailure Nat) ≠
      Except.error (FetchFailure.httpStatus 500) ∧
    (Except.error FetchFailure.unauthorizedTokenExpired : Except FetchFailure Nat) ≠
      Except.error FetchFailure.requestFailed :=
  fetch_bus_times_401_distinct (Except.ok demoPage) demoToken 0 1 500 rfl
    (by decide) (by decide)
